import Mathlib

/-!
Verification of the prospector portfolio risk analytics service.

This file gives a shallow embedding, in Lean 4, of the deterministic core of
the repository: the security reference table and its fallback heuristics
(src/prospector/config/securities.py), the risk calculation functions
(src/prospector/core/calculations.py), the risk processor with its behavioral
adjustment and cache writer (src/prospector/core/risk_processor.py), the data
model (src/models.py), and the Kafka serialization step
(src/prospector/streaming/pipeline.py).

Modelling conventions:
- Python floats are modelled by exact rationals.  All constants in the source
  are short decimal literals and all claims are about exact decimal arithmetic;
  where a floor of a float product is involved we note why the rational floor
  agrees with the float computation for the inputs in range.
- The Python builtin int conversion truncates toward zero; it is modelled by
  pyTrunc below.
- numpy square root is irrational in general; the processor is therefore
  parametrized by the square-root function it uses, and claims about the exact
  volatility are stated against any nonnegative real V whose square is the
  (exactly computed) portfolio variance.
- Redis is modelled as an explicit state (hashes plus per-key TTLs); a failing
  client makes every call return an error, exceptions are modelled by Except.
-/

namespace Prospector

/-- Characteristics of one security, from the table in
src/prospector/config/securities.py: volatility, expected return and beta. -/
structure SecurityChars where
  volatility : ℚ
  expected_return : ℚ
  beta : ℚ
deriving DecidableEq, Repr

/-- Exact-match association lookup, modelling a Python dict lookup keyed by
strings. -/
def assocFind {α : Type} : List (String × α) → String → Option α
  | [], _ => none
  | (k, v) :: rest, f => if k = f then some v else assocFind rest f

/-- The SECURITY_CHARACTERISTICS dictionary of
src/prospector/config/securities.py, entry for entry. -/
def SECURITY_CHARACTERISTICS : List (String × SecurityChars) := [
  ("AAPL", ⟨0.22, 0.15, 1.2⟩),
  ("GOOGL", ⟨0.24, 0.14, 1.1⟩),
  ("MSFT", ⟨0.20, 0.13, 1.0⟩),
  ("META", ⟨0.32, 0.16, 1.4⟩),
  ("NVDA", ⟨0.40, 0.20, 1.8⟩),
  ("AMD", ⟨0.45, 0.18, 2.0⟩),
  ("INTC", ⟨0.28, 0.10, 1.1⟩),
  ("CRM", ⟨0.30, 0.15, 1.3⟩),
  ("ORCL", ⟨0.26, 0.11, 0.9⟩),
  ("ADBE", ⟨0.28, 0.14, 1.2⟩),
  ("JPM", ⟨0.20, 0.10, 1.1⟩),
  ("BAC", ⟨0.25, 0.09, 1.3⟩),
  ("WFC", ⟨0.23, 0.09, 1.2⟩),
  ("GS", ⟨0.26, 0.11, 1.4⟩),
  ("MS", ⟨0.28, 0.11, 1.5⟩),
  ("V", ⟨0.18, 0.12, 0.9⟩),
  ("MA", ⟨0.19, 0.12, 1.0⟩),
  ("PYPL", ⟨0.35, 0.08, 1.6⟩),
  ("BRK.B", ⟨0.16, 0.10, 0.8⟩),
  ("JNJ", ⟨0.14, 0.08, 0.7⟩),
  ("PFE", ⟨0.18, 0.07, 0.8⟩),
  ("UNH", ⟨0.16, 0.11, 0.8⟩),
  ("CVS", ⟨0.20, 0.08, 0.9⟩),
  ("MRK", ⟨0.17, 0.08, 0.7⟩),
  ("ABBV", ⟨0.19, 0.09, 0.8⟩),
  ("LLY", ⟨0.18, 0.10, 0.7⟩),
  ("TMO", ⟨0.19, 0.11, 0.9⟩),
  ("AMZN", ⟨0.28, 0.15, 1.3⟩),
  ("WMT", ⟨0.16, 0.08, 0.6⟩),
  ("HD", ⟨0.18, 0.10, 0.9⟩),
  ("NKE", ⟨0.22, 0.11, 1.0⟩),
  ("MCD", ⟨0.15, 0.08, 0.6⟩),
  ("SBUX", ⟨0.24, 0.10, 1.0⟩),
  ("KO", ⟨0.14, 0.07, 0.6⟩),
  ("PEP", ⟨0.13, 0.07, 0.5⟩),
  ("PG", ⟨0.15, 0.08, 0.6⟩),
  ("XOM", ⟨0.28, 0.08, 1.1⟩),
  ("CVX", ⟨0.30, 0.08, 1.2⟩),
  ("COP", ⟨0.35, 0.09, 1.4⟩),
  ("DIS", ⟨0.22, 0.09, 1.1⟩),
  ("NFLX", ⟨0.38, 0.15, 1.5⟩),
  ("TSLA", ⟨0.50, 0.20, 2.2⟩),
  ("F", ⟨0.35, 0.06, 1.5⟩),
  ("GM", ⟨0.32, 0.07, 1.4⟩),
  ("T", ⟨0.18, 0.06, 0.7⟩),
  ("VZ", ⟨0.16, 0.06, 0.6⟩),
  ("CMCSA", ⟨0.20, 0.08, 0.9⟩),
  ("CSCO", ⟨0.22, 0.08, 1.0⟩),
  ("IBM", ⟨0.20, 0.06, 0.9⟩),
  ("TXN", ⟨0.22, 0.10, 1.1⟩),
  ("AVGO", ⟨0.26, 0.12, 1.3⟩)]

/-- Whether the pattern occurs at the head of the character list. -/
def charsStartWith : List Char → List Char → Bool
  | [], _ => true
  | _ :: _, [] => false
  | p :: ps, c :: cs => p == c && charsStartWith ps cs

/-- Whether the pattern occurs as a contiguous run anywhere in the list;
models the Python substring membership test. -/
def charsContain : List Char → List Char → Bool
  | [], pat => pat.isEmpty
  | c :: rest, pat => charsStartWith pat (c :: rest) || charsContain rest pat

/-- The characters of a string, uppercased; models the Python upper method.
The core toUpper is avoided because its recursion does not reduce
definitionally. -/
def upperData (s : String) : List Char :=
  s.data.map Char.toUpper

/-- Substring containment: the pattern string occurs inside the uppercased
symbol, as in the Python expression pat in symbol.upper(). -/
def upperContainsSub (symbol pat : String) : Bool :=
  charsContain (upperData symbol) pat.data

/-- The fallback branch of get_security_characteristics
(src/prospector/config/securities.py lines 100-111): substring heuristics on
the uppercased symbol. -/
def fallback_characteristics (symbol : String) : SecurityChars :=
  if (["TECH", "SOFT", "CYBER", "CLOUD", "AI"].any fun p => upperContainsSub symbol p) then
    ⟨0.30, 0.12, 1.3⟩
  else if (["BANK", "CAPITAL", "FINANCIAL", "FUND"].any fun p => upperContainsSub symbol p) then
    ⟨0.22, 0.09, 1.1⟩
  else if (["HEALTH", "BIO", "PHARMA", "MED"].any fun p => upperContainsSub symbol p) then
    ⟨0.20, 0.09, 0.8⟩
  else if (["ENERGY", "OIL", "GAS", "SOLAR"].any fun p => upperContainsSub symbol p) then
    ⟨0.32, 0.08, 1.3⟩
  else
    ⟨0.20, 0.08, 1.0⟩

/-- get_security_characteristics of src/prospector/config/securities.py:
exact (case-sensitive) dictionary lookup, falling back to the substring
heuristics for unknown symbols.  As a Lean function it is total,
deterministic and side-effect free by construction. -/
def get_security_characteristics (symbol : String) : SecurityChars :=
  match assocFind SECURITY_CHARACTERISTICS symbol with
  | some chars => chars
  | none => fallback_characteristics symbol

/-- The Sector enumeration of src/models.py. -/
inductive Sector
  | technology | healthcare | finance | consumer | energy | realEstate
  | retail | telecom | entertainment | automotive | other
deriving DecidableEq, Repr

/-- The RiskTolerance enumeration of src/models.py. -/
inductive RiskTolerance
  | conservative | moderate | aggressive
deriving DecidableEq, Repr

/-- The AccountType enumeration of src/models.py. -/
inductive AccountType
  | individual | joint | ira | rothIra | k401 | trust
deriving DecidableEq, Repr

/-- The Position model of src/models.py. -/
structure Position where
  symbol : String
  quantity : ℚ
  price : ℚ
  market_value : ℚ
  weight : ℚ
  sector : Sector
deriving DecidableEq, Repr

/-- The Portfolio model of src/models.py. -/
structure Portfolio where
  id : String
  advisor_id : String
  client_id : String
  positions : List Position
  total_value : ℚ
  timestamp : ℚ
  risk_tolerance : RiskTolerance
  account_type : AccountType
deriving DecidableEq, Repr

/-- The validation invariants a Position passes in src/models.py together
with the section 3 invariants of the specification. -/
def Position.valid (pos : Position) : Prop :=
  pos.symbol ≠ "" ∧ 0 < pos.quantity ∧ 0 < pos.price ∧ 0 < pos.market_value ∧
  |pos.market_value - pos.quantity * pos.price| ≤ 0.01 ∧
  0 ≤ pos.weight ∧ pos.weight ≤ 100

instance (pos : Position) : Decidable pos.valid := by
  unfold Position.valid; infer_instance

/-- The validation invariants an accepted Portfolio passes (src/models.py
validators and section 3 of the specification): nonempty identifiers, at
least one valid position, total value matching the position values within
0.01, and weights summing to 100 within 0.1. -/
def Portfolio.accepted (p : Portfolio) : Prop :=
  p.id ≠ "" ∧ p.advisor_id ≠ "" ∧ p.client_id ≠ "" ∧
  1 ≤ p.positions.length ∧ 0 < p.total_value ∧
  |p.total_value - (p.positions.map Position.market_value).sum| ≤ 0.01 ∧
  |(p.positions.map Position.weight).sum - 100| ≤ 0.1 ∧
  ∀ pos ∈ p.positions, pos.valid

instance (p : Portfolio) : Decidable p.accepted := by
  unfold Portfolio.accepted; infer_instance

/-! Constants from src/prospector/config/constants.py. -/

def Z_SCORE : ℚ := 1.64
def RISK_FREE_RATE : ℚ := 0.03
def MIN_RISK_NUMBER : ℤ := 20
def MAX_RISK_NUMBER : ℤ := 100
def CONSERVATIVE_ADJUSTMENT : ℚ := 1.1
def AGGRESSIVE_ADJUSTMENT : ℚ := 0.9
def SAME_SECTOR_CORRELATION : ℚ := 0.7
def DIFFERENT_SECTOR_CORRELATION : ℚ := 0.3
def BETA_CORRELATION_ADJUSTMENT : ℚ := 0.1
def MIN_CORRELATION : ℚ := 0.1
def MAX_CORRELATION : ℚ := 0.95
def REDIS_TTL : ℕ := 300

/-- The Python builtin int conversion: truncation toward zero. -/
def pyTrunc (q : ℚ) : ℤ :=
  if 0 ≤ q then ⌊q⌋ else ⌈q⌉

/-- downside_percentage_to_risk_number of
src/prospector/core/calculations.py lines 92-129: piecewise map from the
downside percentage to the integer risk score, clamped into the
MIN_RISK_NUMBER..MAX_RISK_NUMBER range before the int conversion. -/
def downside_percentage_to_risk_number (downside_pct : ℚ) : ℤ :=
  if 0 ≤ downside_pct then
    MIN_RISK_NUMBER
  else
    let downside_abs := |downside_pct|
    let risk_number : ℚ :=
      if downside_abs ≤ 2 then
        (MIN_RISK_NUMBER : ℚ) + (downside_abs / 2) * 5
      else if downside_abs ≤ 18 then
        let normalized := (downside_abs - 2) / 16
        25 + normalized * normalized * 60
      else
        let normalized := min ((downside_abs - 18) / 12) 1
        85 + normalized * 15
    pyTrunc (min (MAX_RISK_NUMBER : ℚ) (max (MIN_RISK_NUMBER : ℚ) risk_number))

/-- The risk tolerance adjustment of src/prospector/core/risk_processor.py
lines 155-177.  The Python source multiplies the integer risk number by the
float constants 1.1 and 0.9; for every integer in the 20..100 range the
truncated float product coincides with the truncated exact rational product
(the float constants exceed the decimals by less than 1e-15 and the products
stay more than 1e-13 away from crossing an integer from below), so the
rational model is exact. -/
def apply_risk_tolerance_adjustment (risk_number : ℤ)
    (risk_tolerance : RiskTolerance) : ℤ :=
  match risk_tolerance with
  | RiskTolerance.conservative =>
      min 100 (pyTrunc ((risk_number : ℚ) * CONSERVATIVE_ADJUSTMENT))
  | RiskTolerance.aggressive =>
      max 20 (pyTrunc ((risk_number : ℚ) * AGGRESSIVE_ADJUSTMENT))
  | RiskTolerance.moderate => risk_number

/-- One entry of the correlation matrix built by
calculate_correlation_matrix (src/prospector/core/calculations.py lines
43-89): 1 on the diagonal; otherwise a sector-based base correlation,
adjusted down by the capped beta difference, clamped into the
MIN_CORRELATION..MAX_CORRELATION band. -/
def correlationEntry (positions : List Position)
    (i j : Fin positions.length) : ℚ :=
  if i = j then 1.0
  else
    let posi := positions.get i
    let posj := positions.get j
    let base_corr :=
      if posi.sector = posj.sector then SAME_SECTOR_CORRELATION
      else DIFFERENT_SECTOR_CORRELATION
    let beta_i := (get_security_characteristics posi.symbol).beta
    let beta_j := (get_security_characteristics posj.symbol).beta
    let beta_adjustment := -BETA_CORRELATION_ADJUSTMENT * min |beta_i - beta_j| 1.0
    min MAX_CORRELATION (max MIN_CORRELATION (base_corr + beta_adjustment))

/-- Dot product of two rational lists, as numpy sum of an elementwise
product of equal-length vectors. -/
def dotList (xs ys : List ℚ) : ℚ :=
  (List.zipWith (fun a b => a * b) xs ys).sum

/-- The position weights as fractions, per risk_processor.py line 75. -/
def weightsOf (positions : List Position) : List ℚ :=
  positions.map (fun pos => pos.weight / 100)

/-- Weighted expected return of the positions (risk_processor.py lines
78-99 with calculations.py line 151). -/
def portfolio_return_of (positions : List Position) : ℚ :=
  dotList (weightsOf positions)
    (positions.map fun pos => (get_security_characteristics pos.symbol).expected_return)

/-- Weighted beta of the positions (risk_processor.py line 93). -/
def portfolio_beta_of (positions : List Position) : ℚ :=
  dotList (weightsOf positions)
    (positions.map fun pos => (get_security_characteristics pos.symbol).beta)

/-- Weight of position i as a fraction. -/
def posWeight (positions : List Position) (i : Fin positions.length) : ℚ :=
  (positions.get i).weight / 100

/-- Volatility of the security held at position i. -/
def posVol (positions : List Position) (i : Fin positions.length) : ℚ :=
  (get_security_characteristics (positions.get i).symbol).volatility

/-- Portfolio variance w . (cov . w) where the covariance matrix is the
outer product of the volatilities times the correlation matrix
(calculations.py lines 150-157). -/
def variance_of (positions : List Position) : ℚ :=
  ∑ i, ∑ j,
    posWeight positions i *
      (posVol positions i * posVol positions j * correlationEntry positions i j) *
      posWeight positions j

/-- Portfolio variance of a Portfolio snapshot. -/
def portfolio_variance (p : Portfolio) : ℚ :=
  variance_of p.positions

/-- calculate_value_at_risk of calculations.py lines 166-188: the absolute
dollar move corresponding to the downside percentage. -/
def calculate_value_at_risk (total_value portfolio_volatility : ℚ) : ℚ :=
  let downside_percentage := -Z_SCORE * portfolio_volatility * 100
  |downside_percentage / 100 * total_value|

/-- The RiskCalculation model of src/models.py lines 148-175: exactly the
nine declared fields, in declaration order.  The downside percentage,
portfolio beta and downside capture computed by the processor are not fields
of this model. -/
structure RiskCalculation where
  portfolio_id : String
  advisor_id : String
  risk_number : ℤ
  var_95 : ℚ
  expected_return : ℚ
  volatility : ℚ
  sharpe_ratio : ℚ
  calculation_time_ms : ℚ
  timestamp : ℚ
deriving DecidableEq, Repr

/-- A JSON scalar as produced by the pydantic json serialization of a
RiskCalculation. -/
inductive JsonVal
  | jstr (s : String)
  | jint (n : ℤ)
  | jnum (q : ℚ)
deriving DecidableEq, Repr

/-- The JSON object produced by the pydantic json() call on a
RiskCalculation: one member per declared field, in declaration order. -/
def RiskCalculation.jsonFields (rc : RiskCalculation) : List (String × JsonVal) :=
  [("portfolio_id", JsonVal.jstr rc.portfolio_id),
   ("advisor_id", JsonVal.jstr rc.advisor_id),
   ("risk_number", JsonVal.jint rc.risk_number),
   ("var_95", JsonVal.jnum rc.var_95),
   ("expected_return", JsonVal.jnum rc.expected_return),
   ("volatility", JsonVal.jnum rc.volatility),
   ("sharpe_ratio", JsonVal.jnum rc.sharpe_ratio),
   ("calculation_time_ms", JsonVal.jnum rc.calculation_time_ms),
   ("timestamp", JsonVal.jnum rc.timestamp)]

/-- A Kafka sink message: key bytes and JSON payload, modelled at the level
of the decoded key string and the JSON object members. -/
structure KafkaSinkMessage where
  key : String
  value : List (String × JsonVal)
deriving DecidableEq, Repr

/-- serialize_for_kafka of src/prospector/streaming/pipeline.py lines 39-56:
None propagates, otherwise the message is keyed by the portfolio id of the
risk calculation and carries its JSON encoding. -/
def serialize_for_kafka (risk_data : Option (String × RiskCalculation)) :
    Option KafkaSinkMessage :=
  match risk_data with
  | none => none
  | some (_, risk_calc) =>
      some ⟨risk_calc.portfolio_id, risk_calc.jsonFields⟩

/-- A value stored in a Redis hash field.  The source stringifies every
numeric field before the write; since that conversion is injective the model
keeps the numeric value itself, and keeps genuine strings apart. -/
inductive CacheVal
  | str (s : String)
  | num (q : ℚ)
deriving DecidableEq, Repr

/-- Update one binding of an association list, appending when absent. -/
def assocSet {α : Type} : List (String × α) → String → α → List (String × α)
  | [], f, v => [(f, v)]
  | (g, w) :: rest, f, v =>
      if g = f then (f, v) :: rest else (g, w) :: assocSet rest f v

/-- The Redis state: hashes (key to field map) and per-key TTLs in
seconds. -/
structure RedisState where
  hashes : List (String × List (String × CacheVal))
  ttls : List (String × ℕ)
deriving DecidableEq, Repr

/-- The empty Redis state. -/
def RedisState.empty : RedisState := ⟨[], []⟩

/-- Read one hash field. -/
def hashGet (st : RedisState) (key field : String) : Option CacheVal :=
  match assocFind st.hashes key with
  | none => none
  | some h => assocFind h field

/-- The Redis HSET command with a field mapping: every listed field is set;
fields of the hash that are not listed survive.  A missing key is created. -/
def hashSetMapping (st : RedisState) (key : String)
    (fields : List (String × CacheVal)) : RedisState :=
  let h := (assocFind st.hashes key).getD []
  let h2 := fields.foldl (fun acc fv => assocSet acc fv.1 fv.2) h
  { st with hashes := assocSet st.hashes key h2 }

/-- The Redis EXPIRE command: sets the TTL of the key, replacing any
previous TTL. -/
def expireKey (st : RedisState) (key : String) (ttl : ℕ) : RedisState :=
  { st with ttls := assocSet st.ttls key ttl }

/-- The Redis HINCRBY and HINCRBYFLOAT commands: a missing field counts as
zero, a non-numeric field is an error. -/
def hashIncr (st : RedisState) (key field : String) (delta : ℚ) :
    Except String RedisState :=
  match hashGet st key field with
  | none => Except.ok (hashSetMapping st key [(field, CacheVal.num delta)])
  | some (CacheVal.num n) =>
      Except.ok (hashSetMapping st key [(field, CacheVal.num (n + delta))])
  | some (CacheVal.str _) => Except.error "hash value is not a number"

/-- The Redis client handed to the processor.  A failing client raises a
connection error on every command, modelling the failure injection of the
error handling claims. -/
structure RedisClient where
  failing : Bool
deriving DecidableEq, Repr

/-- Runs one Redis command against the client: a failing client turns every
command into an error. -/
def redisRun {α : Type} (client : RedisClient) (command : Except String α) :
    Except String α :=
  if client.failing then Except.error "connection refused" else command

/-- The flat record written by the cache writer
(src/prospector/core/risk_processor.py lines 200-214): every RiskCalculation
field, the three extra metrics, and the methodology marker. -/
def riskDataFields (risk_calc : RiskCalculation)
    (downside_percentage portfolio_beta downside_capture : ℚ) :
    List (String × CacheVal) :=
  [("portfolio_id", CacheVal.str risk_calc.portfolio_id),
   ("advisor_id", CacheVal.str risk_calc.advisor_id),
   ("risk_number", CacheVal.num (risk_calc.risk_number : ℚ)),
   ("var_95", CacheVal.num risk_calc.var_95),
   ("expected_return", CacheVal.num risk_calc.expected_return),
   ("volatility", CacheVal.num risk_calc.volatility),
   ("sharpe_ratio", CacheVal.num risk_calc.sharpe_ratio),
   ("downside_percentage", CacheVal.num downside_percentage),
   ("portfolio_beta", CacheVal.num portfolio_beta),
   ("downside_capture", CacheVal.num downside_capture),
   ("calculation_time_ms", CacheVal.num risk_calc.calculation_time_ms),
   ("timestamp", CacheVal.num risk_calc.timestamp),
   ("methodology", CacheVal.str "advanced_behavioral")]

/-- The cache writer _cache_results of
src/prospector/core/risk_processor.py lines 179-228.  Without a client it
does nothing.  Otherwise it runs HSET, EXPIRE, HINCRBY and HINCRBYFLOAT in
order inside one try block: the first failing command stops the sequence,
the exception is caught and logged, and the effects of the commands already
run persist.  The function always returns (never propagates the error). -/
def cache_results (client : Option RedisClient) (key : String)
    (risk_calc : RiskCalculation)
    (downside_percentage portfolio_beta downside_capture : ℚ)
    (st : RedisState) : RedisState :=
  match client with
  | none => st
  | some c =>
      let pkey := "portfolio:" ++ key
      let fields := riskDataFields risk_calc downside_percentage
        portfolio_beta downside_capture
      match redisRun c (Except.ok (hashSetMapping st pkey fields)) with
      | Except.error _ => st
      | Except.ok st1 =>
          match redisRun c (Except.ok (expireKey st1 pkey REDIS_TTL)) with
          | Except.error _ => st1
          | Except.ok st2 =>
              match redisRun c
                  (hashIncr st2 "global:metrics" "total_calculations" 1) with
              | Except.error _ => st2
              | Except.ok st3 =>
                  match redisRun c
                      (hashIncr st3 "global:metrics" "total_processing_time_ms"
                        risk_calc.calculation_time_ms) with
                  | Except.error _ => st3
                  | Except.ok st4 => st4

/-- calculate_portfolio_risk of src/prospector/core/risk_processor.py lines
50-153, as a pure state-passing function.  The wall-clock reads and the
numpy square root are parameters: sqrtFn models the float square root
applied to the exactly computed portfolio variance, ts_start and ts_end the
two time.time() reads, and ts_model the default timestamp taken when the
RiskCalculation model is constructed.  A None input and any caught error
yield None; the cache write happens before the return and its errors are
swallowed inside cache_results. -/
def calculate_portfolio_risk (sqrtFn : ℚ → ℚ) (client : Option RedisClient)
    (ts_start ts_end ts_model : ℚ)
    (portfolio_tuple : Option (String × Portfolio)) (st : RedisState) :
    Option (String × RiskCalculation) × RedisState :=
  match portfolio_tuple with
  | none => (none, st)
  | some (key, portfolio) =>
      let positions := portfolio.positions
      let total_value := portfolio.total_value
      let portfolio_return := portfolio_return_of positions
      let portfolio_beta := portfolio_beta_of positions
      let portfolio_volatility := sqrtFn (variance_of positions)
      let downside_percentage := -Z_SCORE * portfolio_volatility * 100
      let var_95 := calculate_value_at_risk total_value portfolio_volatility
      let sharpe_ratio :=
        if 0 < portfolio_volatility then
          (portfolio_return - RISK_FREE_RATE) / portfolio_volatility
        else 0
      let base_risk := downside_percentage_to_risk_number downside_percentage
      let risk_number :=
        apply_risk_tolerance_adjustment base_risk portfolio.risk_tolerance
      let downside_capture := portfolio_beta * 100
      let calculation_time := (ts_end - ts_start) * 1000
      let risk_calc : RiskCalculation :=
        ⟨portfolio.id, portfolio.advisor_id, risk_number, var_95,
         portfolio_return, portfolio_volatility, sharpe_ratio,
         calculation_time, ts_model⟩
      let st2 := cache_results client key risk_calc downside_percentage
        portfolio_beta downside_capture st
      (some (key, risk_calc), st2)

/-! Definitions written from the wording of the specification claims, to be
compared with the definitions taken from the source. -/

/-- Modelled from the wording of claim C1: 20 for a nonnegative downside,
otherwise the piecewise linear-quadratic-linear map of d = abs downside,
clamped into the 20..100 band and then truncated to an integer. -/
def riskNumberSpec (D : ℚ) : ℤ :=
  if 0 ≤ D then 20
  else
    let d := |D|
    let raw : ℚ :=
      if d ≤ 2 then 20 + (d / 2) * 5
      else if d ≤ 18 then 25 + ((d - 2) / 16) ^ 2 * 60
      else 85 + min ((d - 18) / 12) 1 * 15
    pyTrunc (min 100 (max 20 raw))

/-- Modelled from the wording of claim C7: the fallback characteristics for
a symbol absent from the reference table, by case-insensitive substring
heuristics, with the first matching group winning. -/
def fallbackSpec (symbol : String) : SecurityChars :=
  if (["TECH", "SOFT", "CYBER", "CLOUD", "AI"].any fun p => upperContainsSub symbol p) then
    ⟨0.30, 0.12, 1.3⟩
  else if (["BANK", "CAPITAL", "FINANCIAL", "FUND"].any fun p => upperContainsSub symbol p) then
    ⟨0.22, 0.09, 1.1⟩
  else if (["HEALTH", "BIO", "PHARMA", "MED"].any fun p => upperContainsSub symbol p) then
    ⟨0.20, 0.09, 0.8⟩
  else if (["ENERGY", "OIL", "GAS", "SOLAR"].any fun p => upperContainsSub symbol p) then
    ⟨0.32, 0.08, 1.3⟩
  else
    ⟨0.20, 0.08, 1.0⟩

/-- The numeric content of a cache value: the number held, zero for absent
or non-numeric values; matches the base Redis gives a missing field in
HINCRBY and HINCRBYFLOAT. -/
def numOr0 (o : Option CacheVal) : ℚ :=
  match o with
  | some (CacheVal.num q) => q
  | _ => 0

/-- Whether a hash field can be incremented: absent or numeric. -/
def numericOk (o : Option CacheVal) : Bool :=
  match o with
  | some (CacheVal.str _) => false
  | _ => true

/-! Concrete data used by the closed counterexample and witness theorems. -/

/-- A concrete risk calculation used for the serialization
counterexample. -/
def rcC5 : RiskCalculation :=
  ⟨"p1", "a1", 50, 120.5, 0.12, 0.18, 0.5, 2.5, 1700000000⟩

/-- A concrete risk calculation used for the cache writer theorems. -/
def rcC6 : RiskCalculation :=
  ⟨"p6", "a6", 64, 820, 0.11, 0.21, 0.4, 3.5, 1700000100⟩

/-- A concrete position with weight 99.9, accepted by the validators since
the weight sum tolerance is 0.1. -/
def posC8 : Position :=
  ⟨"AAPL", 1, 100, 100, 99.9, Sector.technology⟩

/-- A concrete accepted single-position portfolio whose only position has
weight 99.9. -/
def portfolioC8 : Portfolio :=
  ⟨"P8", "A8", "C8", [posC8], 100, 0, RiskTolerance.moderate,
   AccountType.individual⟩

/-- A concrete position with weight exactly 100. -/
def posC8w : Position :=
  ⟨"AAPL", 1, 100, 100, 100, Sector.technology⟩

/-- A concrete accepted single-position portfolio whose only position has
weight exactly 100. -/
def portfolioC8w : Portfolio :=
  ⟨"P8", "A8", "C8", [posC8w], 100, 0, RiskTolerance.moderate,
   AccountType.individual⟩

/-- A concrete two-position list for the correlation matrix witness. -/
def positionsC4 : List Position :=
  [⟨"AAPL", 1, 100, 100, 60, Sector.technology⟩,
   ⟨"JNJ", 1, 100, 100, 40, Sector.healthcare⟩]

/-- A concrete accepted portfolio for the risk bound witness. -/
def portfolioC2 : Portfolio :=
  ⟨"P2", "A2", "C2", [⟨"AAPL", 1, 100, 100, 100, Sector.technology⟩],
   100, 0, RiskTolerance.conservative, AccountType.individual⟩

/-- First index into the two-position list. -/
def idxC4a : Fin positionsC4.length := ⟨0, by decide⟩

/-- Second index into the two-position list. -/
def idxC4b : Fin positionsC4.length := ⟨1, by decide⟩

section Claims

attribute [local semireducible] Rat.mul Rat.add Rat.sub Rat.inv Rat.ofScientific

lemma pyTrunc_eq_floor {q : ℚ} (h : 0 ≤ q) : pyTrunc q = ⌊q⌋ := by
  rw [pyTrunc, if_pos h]

lemma pyTrunc_clamp_le (x : ℚ) :
    pyTrunc (min (100 : ℚ) (max 20 x)) ≤ 100 := by
  have h20 : (0:ℚ) ≤ min (100 : ℚ) (max 20 x) :=
    le_min (by norm_num) (le_trans (by norm_num) (le_max_left 20 x))
  rw [pyTrunc_eq_floor h20]
  have h := Int.floor_le_floor (min_le_left (100 : ℚ) (max 20 x))
  have h100 : ⌊(100:ℚ)⌋ = 100 := by norm_num
  omega

lemma pyTrunc_clamp_ge (x : ℚ) :
    20 ≤ pyTrunc (min (100 : ℚ) (max 20 x)) := by
  have h20 : (20:ℚ) ≤ min (100 : ℚ) (max 20 x) :=
    le_min (by norm_num) (le_max_left 20 x)
  rw [pyTrunc_eq_floor (le_trans (by norm_num) h20)]
  exact Int.le_floor.mpr (by exact_mod_cast h20)

/-- The base risk number lands in the 20..100 band for every downside
percentage. -/
lemma risk_number_mem (d : ℚ) :
    20 ≤ downside_percentage_to_risk_number d ∧
    downside_percentage_to_risk_number d ≤ 100 := by
  rw [downside_percentage_to_risk_number]
  split_ifs with h0
  · exact ⟨le_refl _, by norm_num [MIN_RISK_NUMBER]⟩
  · have hmin : (MIN_RISK_NUMBER : ℚ) = 20 := by norm_num [MIN_RISK_NUMBER]
    have hmax : (MAX_RISK_NUMBER : ℚ) = 100 := by norm_num [MAX_RISK_NUMBER]
    rw [hmin, hmax]
    exact ⟨pyTrunc_clamp_ge _, pyTrunc_clamp_le _⟩

/-- The behavioral adjustment keeps a 20..100 risk number in the band. -/
lemma adjustment_mem (r : ℤ) (tol : RiskTolerance) (h1 : 20 ≤ r)
    (h2 : r ≤ 100) :
    20 ≤ apply_risk_tolerance_adjustment r tol ∧
    apply_risk_tolerance_adjustment r tol ≤ 100 := by
  have hr0 : (0:ℚ) ≤ (r : ℚ) := by exact_mod_cast le_trans (by norm_num) h1
  cases tol with
  | conservative =>
      simp only [apply_risk_tolerance_adjustment, CONSERVATIVE_ADJUSTMENT]
      rw [pyTrunc_eq_floor (by positivity)]
      constructor
      · refine le_min (by norm_num) (Int.le_floor.mpr ?_)
        have : (20:ℚ) ≤ (r:ℚ) := by exact_mod_cast h1
        push_cast
        nlinarith
      · exact min_le_left _ _
  | aggressive =>
      simp only [apply_risk_tolerance_adjustment, AGGRESSIVE_ADJUSTMENT]
      rw [pyTrunc_eq_floor (by positivity)]
      constructor
      · exact le_max_left _ _
      · refine max_le (by norm_num) ?_
        have hle : (r:ℚ) * 0.9 ≤ 90 := by
          have : (r:ℚ) ≤ 100 := by exact_mod_cast h2
          nlinarith
        have h := Int.floor_le_floor hle
        have h90 : ⌊(90:ℚ)⌋ = 90 := by norm_num
        omega
  | moderate => exact ⟨h1, h2⟩

/-- Claim C1: the downside-percentage-to-risk-number mapping is exactly the
piecewise map of the specification (20 for nonnegative downside, linear to
25 up to 2 percent, quadratic to 85 up to 18 percent, linear capped at 100
beyond, clamped into the 20..100 band and truncated), and it maps the
downside percentage -3.28 to exactly 25. -/
theorem claim_C1 :
    (∀ D : ℚ, downside_percentage_to_risk_number D = riskNumberSpec D) ∧
    downside_percentage_to_risk_number (-3.28) = 25 := by
  constructor
  · intro D
    simp only [downside_percentage_to_risk_number, riskNumberSpec]
    split_ifs with h0 h1 h2 <;>
      first
        | rfl
        | (congr 1
           all_goals push_cast [MIN_RISK_NUMBER, MAX_RISK_NUMBER]
           all_goals congr 1
           all_goals congr 1
           all_goals ring)
  · decide

/-- Claim C3: on a base risk number in 20..100, the behavioral adjustment
is min 100 of the floor of 1.1 times the risk number for a conservative
tolerance, max 20 of the floor of 0.9 times it for an aggressive tolerance,
and the identity for a moderate tolerance. -/
theorem claim_C3 (r : ℤ) (h1 : 20 ≤ r) (_h2 : r ≤ 100) :
    apply_risk_tolerance_adjustment r RiskTolerance.conservative =
      min 100 ⌊(r : ℚ) * 1.1⌋ ∧
    apply_risk_tolerance_adjustment r RiskTolerance.aggressive =
      max 20 ⌊(r : ℚ) * 0.9⌋ ∧
    apply_risk_tolerance_adjustment r RiskTolerance.moderate = r := by
  have hr0 : (0:ℚ) ≤ (r : ℚ) := by exact_mod_cast le_trans (by norm_num) h1
  refine ⟨?_, ?_, rfl⟩
  · simp only [apply_risk_tolerance_adjustment, CONSERVATIVE_ADJUSTMENT]
    rw [pyTrunc_eq_floor (by positivity)]
  · simp only [apply_risk_tolerance_adjustment, AGGRESSIVE_ADJUSTMENT]
    rw [pyTrunc_eq_floor (by positivity)]

/-- Witness for claim C3 at the concrete base risk number 64. -/
theorem claim_C3_witness :
    ((20:ℤ) ≤ 64 ∧ (64:ℤ) ≤ 100) ∧
    (apply_risk_tolerance_adjustment 64 RiskTolerance.conservative =
      min 100 ⌊(64 : ℚ) * 1.1⌋ ∧
    apply_risk_tolerance_adjustment 64 RiskTolerance.aggressive =
      max 20 ⌊(64 : ℚ) * 0.9⌋ ∧
    apply_risk_tolerance_adjustment 64 RiskTolerance.moderate = 64) :=
  ⟨⟨by decide, by decide⟩, claim_C3 64 (by decide) (by decide)⟩

/-- Claim C2: for every accepted portfolio, the risk number produced by the
processor, after the base mapping and the behavioral tolerance adjustment,
is an integer in the 20..100 band; this holds for every square root model,
every client and every cache state. -/
theorem claim_C2 (sqrtFn : ℚ → ℚ) (client : Option RedisClient)
    (ts_start ts_end ts_model : ℚ) (st : RedisState) (key : String)
    (p : Portfolio) (k : String) (rc : RiskCalculation)
    (_hacc : p.accepted)
    (hres : (calculate_portfolio_risk sqrtFn client ts_start ts_end ts_model
      (some (key, p)) st).1 = some (k, rc)) :
    20 ≤ rc.risk_number ∧ rc.risk_number ≤ 100 := by
  simp only [calculate_portfolio_risk] at hres
  rw [Option.some.injEq, Prod.mk.injEq] at hres
  obtain ⟨-, hrc⟩ := hres
  subst hrc
  exact adjustment_mem _ _ (risk_number_mem _).1 (risk_number_mem _).2

/-- Witness for claim C2 on a concrete accepted portfolio, with the square
root modelled as the zero function. -/
theorem claim_C2_witness :
    Portfolio.accepted portfolioC2 ∧
    (20 ≤ (RiskCalculation.mk "P2" "A2" 22 0 0.15 0 0 0 0).risk_number ∧
      (RiskCalculation.mk "P2" "A2" 22 0 0.15 0 0 0 0).risk_number ≤ 100) :=
  ⟨by decide,
   claim_C2 (fun _ => 0) none 0 0 0 RedisState.empty "P2" portfolioC2 "P2"
     (RiskCalculation.mk "P2" "A2" 22 0 0.15 0 0 0 0) (by decide) (by decide)⟩

/-- Claim C9: when every cache command raises (a failing client), the
processor still returns the same portfolio-id-and-result pair it returns
with a healthy client, the pair is present (the error is swallowed), and
the downstream serialization still produces a message: a cache error does
not abort the egress produce and never fails the pipeline. -/
theorem claim_C9 (sqrtFn : ℚ → ℚ) (ts_start ts_end ts_model : ℚ)
    (key : String) (p : Portfolio) (st : RedisState) (_hacc : p.accepted) :
    (calculate_portfolio_risk sqrtFn (some ⟨true⟩) ts_start ts_end ts_model
        (some (key, p)) st).1 =
      (calculate_portfolio_risk sqrtFn (some ⟨false⟩) ts_start ts_end ts_model
        (some (key, p)) st).1 ∧
    (∃ rc, (calculate_portfolio_risk sqrtFn (some ⟨true⟩) ts_start ts_end
      ts_model (some (key, p)) st).1 = some (key, rc)) ∧
    serialize_for_kafka (calculate_portfolio_risk sqrtFn (some ⟨true⟩)
      ts_start ts_end ts_model (some (key, p)) st).1 ≠ none := by
  refine ⟨rfl, ⟨_, rfl⟩, ?_⟩
  exact Option.some_ne_none _

/-- Witness for claim C9 on a concrete accepted portfolio. -/
theorem claim_C9_witness :
    Portfolio.accepted portfolioC2 ∧
    ((calculate_portfolio_risk (fun _ => 0) (some ⟨true⟩) 0 0 0
        (some ("P2", portfolioC2)) RedisState.empty).1 =
      (calculate_portfolio_risk (fun _ => 0) (some ⟨false⟩) 0 0 0
        (some ("P2", portfolioC2)) RedisState.empty).1 ∧
    (∃ rc, (calculate_portfolio_risk (fun _ => 0) (some ⟨true⟩) 0 0 0
      (some ("P2", portfolioC2)) RedisState.empty).1 = some ("P2", rc)) ∧
    serialize_for_kafka (calculate_portfolio_risk (fun _ => 0) (some ⟨true⟩)
      0 0 0 (some ("P2", portfolioC2)) RedisState.empty).1 ≠ none) :=
  ⟨by decide,
   claim_C9 (fun _ => 0) 0 0 0 "P2" portfolioC2 RedisState.empty (by decide)⟩

/-- Counterexample for claim C5 as stated: the message produced to the
egress topic for a concrete risk result does not contain the
downside_percentage field (nor portfolio_beta or downside_capture); the
serialized model has exactly the nine RiskCalculation fields. -/
theorem claim_C5_counterexample :
    (serialize_for_kafka (some ("p1", rcC5))).map
        (fun m => m.value.map Prod.fst) =
      some ["portfolio_id", "advisor_id", "risk_number", "var_95",
        "expected_return", "volatility", "sharpe_ratio",
        "calculation_time_ms", "timestamp"] ∧
    ¬ ("downside_percentage" ∈ (Option.elim
        (serialize_for_kafka (some ("p1", rcC5))) []
        (fun m => m.value.map Prod.fst))) ∧
    ¬ ("portfolio_beta" ∈ (Option.elim
        (serialize_for_kafka (some ("p1", rcC5))) []
        (fun m => m.value.map Prod.fst))) ∧
    ¬ ("downside_capture" ∈ (Option.elim
        (serialize_for_kafka (some ("p1", rcC5))) []
        (fun m => m.value.map Prod.fst))) := by
  refine ⟨rfl, ?_, ?_, ?_⟩ <;> decide

/-- Claim C5 as amended: every message produced to the egress topic is the
JSON encoding of the RiskCalculation model, keyed by its portfolio id, and
carries exactly the nine RiskCalculation fields; the downside percentage,
portfolio beta and downside capture are not among them. -/
theorem claim_C5_amended (key : String) (rc : RiskCalculation) :
    serialize_for_kafka (some (key, rc)) =
      some ⟨rc.portfolio_id, rc.jsonFields⟩ ∧
    rc.jsonFields.map Prod.fst =
      ["portfolio_id", "advisor_id", "risk_number", "var_95",
       "expected_return", "volatility", "sharpe_ratio",
       "calculation_time_ms", "timestamp"] ∧
    ¬ ("downside_percentage" ∈ rc.jsonFields.map Prod.fst) ∧
    ¬ ("portfolio_beta" ∈ rc.jsonFields.map Prod.fst) ∧
    ¬ ("downside_capture" ∈ rc.jsonFields.map Prod.fst) := by
  refine ⟨rfl, rfl, ?_, ?_, ?_⟩ <;>
    simp [RiskCalculation.jsonFields]

/-- Claim C7: for every symbol absent from the reference table, the lookup
returns exactly the fallback characteristics described by the
specification: the tech, finance, health and energy substring groups in
that order on the uppercased symbol, and the generic default otherwise.
Totality, determinism and freedom from side effects hold by construction,
since the embedding is a pure total function. -/
theorem claim_C7 (symbol : String)
    (h : assocFind SECURITY_CHARACTERISTICS symbol = none) :
    get_security_characteristics symbol = fallbackSpec symbol := by
  rw [get_security_characteristics, h]
  rfl

/-- Witness for claim C7 at the concrete unknown symbol NEWAI. -/
theorem claim_C7_witness :
    assocFind SECURITY_CHARACTERISTICS "NEWAI" = none ∧
    get_security_characteristics "NEWAI" = fallbackSpec "NEWAI" :=
  ⟨by decide, claim_C7 "NEWAI" (by decide)⟩

/-- Claim C10: the reference-table lookup is exact and case-sensitive; the
lowercase spelling aapl misses the AAPL table entry and instead receives
the generic fallback characteristics, which differ from the table entry. -/
theorem claim_C10 :
    assocFind SECURITY_CHARACTERISTICS "AAPL" =
      some ⟨0.22, 0.15, 1.2⟩ ∧
    assocFind SECURITY_CHARACTERISTICS "aapl" = none ∧
    get_security_characteristics "aapl" = ⟨0.20, 0.08, 1.0⟩ ∧
    get_security_characteristics "aapl" ≠ get_security_characteristics "AAPL" := by
  exact ⟨by decide, by decide, by decide, by decide⟩

/-- The correlation entry is symmetric in its two indices. -/
lemma correlationEntry_symm (positions : List Position)
    (i j : Fin positions.length) :
    correlationEntry positions i j = correlationEntry positions j i := by
  by_cases hij : i = j
  · subst hij; rfl
  · simp only [correlationEntry, if_neg hij, if_neg (Ne.symm hij)]
    by_cases hs : (positions.get i).sector = (positions.get j).sector
    · rw [if_pos hs, if_pos hs.symm, abs_sub_comm]
    · rw [if_neg hs, if_neg (fun h => hs h.symm), abs_sub_comm]

/-- Claim C4: the correlation matrix has exactly 1 on the diagonal, is
symmetric, and every off-diagonal entry is the clamp into the 0.10 to 0.95
band of the sector base correlation plus the capped beta adjustment, hence
lies in that band. -/
theorem claim_C4 (positions : List Position) (i j : Fin positions.length) :
    correlationEntry positions i i = 1 ∧
    correlationEntry positions i j = correlationEntry positions j i ∧
    (i ≠ j →
      (0.10 ≤ correlationEntry positions i j ∧
        correlationEntry positions i j ≤ 0.95) ∧
      correlationEntry positions i j =
        min 0.95 (max 0.1
          ((if (positions.get i).sector = (positions.get j).sector
              then (0.7 : ℚ) else 0.3) +
            -0.1 *
              min |(get_security_characteristics (positions.get i).symbol).beta -
                (get_security_characteristics (positions.get j).symbol).beta|
                1.0))) := by
  refine ⟨by rw [correlationEntry, if_pos rfl]; norm_num,
    correlationEntry_symm _ _ _, ?_⟩
  intro hij
  have heq : correlationEntry positions i j =
      min 0.95 (max 0.1
        ((if (positions.get i).sector = (positions.get j).sector
            then (0.7 : ℚ) else 0.3) +
          -0.1 *
            min |(get_security_characteristics (positions.get i).symbol).beta -
              (get_security_characteristics (positions.get j).symbol).beta|
              1.0)) := by
    simp only [correlationEntry, if_neg hij, SAME_SECTOR_CORRELATION,
      DIFFERENT_SECTOR_CORRELATION, BETA_CORRELATION_ADJUSTMENT,
      MIN_CORRELATION, MAX_CORRELATION]
  refine ⟨⟨?_, ?_⟩, heq⟩
  · rw [heq]
    exact le_min (by norm_num) (le_trans (by norm_num) (le_max_left _ _))
  · rw [heq]
    exact min_le_left _ _

/-- Witness for claim C4 at a concrete two-position list and the two
distinct indices. -/
theorem claim_C4_witness :
    idxC4a ≠ idxC4b ∧
    ((0.10 ≤ correlationEntry positionsC4 idxC4a idxC4b ∧
      correlationEntry positionsC4 idxC4a idxC4b ≤ 0.95) ∧
      correlationEntry positionsC4 idxC4a idxC4b =
        min 0.95 (max 0.1
          ((if (positionsC4.get idxC4a).sector = (positionsC4.get idxC4b).sector
              then (0.7 : ℚ) else 0.3) +
            -0.1 *
              min |(get_security_characteristics (positionsC4.get idxC4a).symbol).beta -
                (get_security_characteristics (positionsC4.get idxC4b).symbol).beta|
                1.0))) :=
  ⟨by decide, (claim_C4 positionsC4 idxC4a idxC4b).2.2 (by decide)⟩

lemma assocFind_assocSet_self {α : Type} (l : List (String × α)) (f : String)
    (v : α) : assocFind (assocSet l f v) f = some v := by
  induction l with
  | nil => simp [assocSet, assocFind]
  | cons hd tl ih =>
      obtain ⟨g, w⟩ := hd
      by_cases h : g = f
      · subst h; simp [assocSet, assocFind]
      · simp [assocSet, assocFind, h, ih]

lemma assocFind_assocSet_ne {α : Type} (l : List (String × α)) (f g : String)
    (v : α) (h : f ≠ g) :
    assocFind (assocSet l f v) g = assocFind l g := by
  induction l with
  | nil => simp [assocSet, assocFind, h]
  | cons hd tl ih =>
      obtain ⟨k, w⟩ := hd
      by_cases hk : k = f
      · subst hk; simp [assocSet, assocFind, h]
      · simp [assocSet, assocFind, hk, ih]

lemma foldl_assocSet_not_mem {α : Type} (fs : List (String × α))
    (l : List (String × α)) (f : String) (h : f ∉ fs.map Prod.fst) :
    assocFind (fs.foldl (fun acc fv => assocSet acc fv.1 fv.2) l) f =
      assocFind l f := by
  induction fs generalizing l with
  | nil => rfl
  | cons hd tl ih =>
      simp only [List.map_cons, List.mem_cons] at h
      push_neg at h
      rw [List.foldl_cons, ih _ h.2,
        assocFind_assocSet_ne _ _ _ _ (fun he => h.1 he.symm)]

lemma foldl_assocSet_mem {α : Type} (fs : List (String × α))
    (l : List (String × α)) (f : String) (v : α)
    (hnd : (fs.map Prod.fst).Nodup) (hmem : (f, v) ∈ fs) :
    assocFind (fs.foldl (fun acc fv => assocSet acc fv.1 fv.2) l) f =
      some v := by
  induction fs generalizing l with
  | nil => cases hmem
  | cons hd tl ih =>
      have hnd2 : (hd.1 :: tl.map Prod.fst).Nodup := by simpa using hnd
      rcases List.mem_cons.mp hmem with heq | hmemtl
      · rw [List.foldl_cons, ← heq]
        have hnotin : f ∉ tl.map Prod.fst := by
          rw [← heq] at hnd2
          exact (List.nodup_cons.mp hnd2).1
        rw [foldl_assocSet_not_mem _ _ _ hnotin]
        exact assocFind_assocSet_self _ _ _
      · rw [List.foldl_cons]
        exact ih (assocSet l hd.1 hd.2) hnd2.of_cons hmemtl

lemma hashGet_hashSetMapping_other (st : RedisState) (k : String)
    (fs : List (String × CacheVal)) (k2 f : String) (h : k ≠ k2) :
    hashGet (hashSetMapping st k fs) k2 f = hashGet st k2 f := by
  simp [hashGet, hashSetMapping, assocFind_assocSet_ne _ _ _ _ h]

lemma hashGet_hashSetMapping_self (st : RedisState) (k : String)
    (fs : List (String × CacheVal)) (f : String) :
    hashGet (hashSetMapping st k fs) k f =
      assocFind (fs.foldl (fun acc fv => assocSet acc fv.1 fv.2)
        ((assocFind st.hashes k).getD [])) f := by
  simp [hashGet, hashSetMapping, assocFind_assocSet_self]

lemma hashGet_hashSetMapping_single_self (st : RedisState) (k g : String)
    (v : CacheVal) :
    hashGet (hashSetMapping st k [(g, v)]) k g = some v := by
  rw [hashGet_hashSetMapping_self]
  simp only [List.foldl_cons, List.foldl_nil]
  exact assocFind_assocSet_self _ _ _

lemma hashGet_hashSetMapping_single_other (st : RedisState) (k g : String)
    (v : CacheVal) (f : String) (h : f ≠ g) :
    hashGet (hashSetMapping st k [(g, v)]) k f = hashGet st k f := by
  rw [hashGet_hashSetMapping_self]
  simp only [List.foldl_cons, List.foldl_nil]
  rw [assocFind_assocSet_ne _ _ _ _ (Ne.symm h)]
  rw [hashGet]
  cases assocFind st.hashes k <;> simp [assocFind]

lemma portfolio_key_ne_metrics (key : String) :
    ("portfolio:" ++ key) ≠ "global:metrics" := by
  intro h
  have hd : ("portfolio:" ++ key).data = "global:metrics".data :=
    congrArg String.data h
  rw [String.data_append] at hd
  have hd2 : ('p' :: ("ortfolio:".data ++ key.data)) =
      'g' :: "lobal:metrics".data := hd
  have hpg : ('p' : Char) = 'g' :=
    Option.some.inj (congrArg List.head? hd2)
  exact absurd hpg (by decide)

lemma hashIncr_ok (st : RedisState) (k f : String) (δ : ℚ)
    (h : numericOk (hashGet st k f) = true) :
    hashIncr st k f δ =
      Except.ok (hashSetMapping st k
        [(f, CacheVal.num (numOr0 (hashGet st k f) + δ))]) := by
  rw [hashIncr]
  cases hv : hashGet st k f with
  | none => simp [numOr0, hv]
  | some v =>
      cases v with
      | str s =>
          rw [hv] at h
          simp [numericOk] at h
      | num q => simp [numOr0, hv]

/-- The all-success run of the cache writer, spelled out state by state. -/
lemma cache_results_false_eq (key : String) (rc : RiskCalculation)
    (dp pb dc : ℚ) (st : RedisState)
    (h1 : numericOk (hashGet st "global:metrics" "total_calculations") = true)
    (h2 : numericOk
      (hashGet st "global:metrics" "total_processing_time_ms") = true) :
    cache_results (some ⟨false⟩) key rc dp pb dc st =
      (let st2 := expireKey
        (hashSetMapping st ("portfolio:" ++ key) (riskDataFields rc dp pb dc))
        ("portfolio:" ++ key) REDIS_TTL
      let st3 := hashSetMapping st2 "global:metrics"
        [("total_calculations", CacheVal.num
          (numOr0 (hashGet st2 "global:metrics" "total_calculations") + 1))]
      hashSetMapping st3 "global:metrics"
        [("total_processing_time_ms", CacheVal.num
          (numOr0 (hashGet st3 "global:metrics" "total_processing_time_ms") +
            rc.calculation_time_ms))]) := by
  have hne : ("portfolio:" ++ key) ≠ "global:metrics" :=
    portfolio_key_ne_metrics key
  rw [cache_results]
  simp only [redisRun, if_neg (by simp : ¬ ((RedisClient.mk false).failing = true))]
  have hg1 : hashGet (expireKey
      (hashSetMapping st ("portfolio:" ++ key) (riskDataFields rc dp pb dc))
      ("portfolio:" ++ key) REDIS_TTL) "global:metrics" "total_calculations" =
      hashGet st "global:metrics" "total_calculations" := by
    show hashGet (hashSetMapping st ("portfolio:" ++ key)
      (riskDataFields rc dp pb dc)) "global:metrics" "total_calculations" = _
    exact hashGet_hashSetMapping_other _ _ _ _ _ hne
  have h1' : numericOk (hashGet (expireKey
      (hashSetMapping st ("portfolio:" ++ key) (riskDataFields rc dp pb dc))
      ("portfolio:" ++ key) REDIS_TTL) "global:metrics"
      "total_calculations") = true := by rw [hg1]; exact h1
  rw [hashIncr_ok _ _ _ _ h1']
  dsimp only
  have hg2 : hashGet (hashSetMapping (expireKey
      (hashSetMapping st ("portfolio:" ++ key) (riskDataFields rc dp pb dc))
      ("portfolio:" ++ key) REDIS_TTL) "global:metrics"
      [("total_calculations", CacheVal.num
        (numOr0 (hashGet (expireKey
          (hashSetMapping st ("portfolio:" ++ key) (riskDataFields rc dp pb dc))
          ("portfolio:" ++ key) REDIS_TTL) "global:metrics"
          "total_calculations") + 1))]) "global:metrics"
      "total_processing_time_ms" =
      hashGet st "global:metrics" "total_processing_time_ms" := by
    rw [hashGet_hashSetMapping_single_other _ _ _ _ _ (by decide)]
    show hashGet (hashSetMapping st ("portfolio:" ++ key)
      (riskDataFields rc dp pb dc)) "global:metrics"
      "total_processing_time_ms" = _
    exact hashGet_hashSetMapping_other _ _ _ _ _ hne
  have h2' : numericOk (hashGet (hashSetMapping (expireKey
      (hashSetMapping st ("portfolio:" ++ key) (riskDataFields rc dp pb dc))
      ("portfolio:" ++ key) REDIS_TTL) "global:metrics"
      [("total_calculations", CacheVal.num
        (numOr0 (hashGet (expireKey
          (hashSetMapping st ("portfolio:" ++ key) (riskDataFields rc dp pb dc))
          ("portfolio:" ++ key) REDIS_TTL) "global:metrics"
          "total_calculations") + 1))]) "global:metrics"
      "total_processing_time_ms") = true := by rw [hg2]; exact h2
  rw [hashIncr_ok _ _ _ _ h2']

/-- Counterexample for claim C6 as stated: a fully successful cache write
(the methodology field lands in the per-portfolio record and the
calculation counter reaches 1) leaves the last_calculation field of the
global metrics hash untouched; the cache writer of the risk processor never
writes it. -/
theorem claim_C6_counterexample :
    hashGet (cache_results (some ⟨false⟩) "p6" rcC6 (-5) 1.1 110
        RedisState.empty) "global:metrics" "last_calculation" = none ∧
    hashGet (cache_results (some ⟨false⟩) "p6" rcC6 (-5) 1.1 110
        RedisState.empty) "portfolio:p6" "methodology" =
      some (CacheVal.str "advanced_behavioral") ∧
    numOr0 (hashGet (cache_results (some ⟨false⟩) "p6" rcC6 (-5) 1.1 110
        RedisState.empty) "global:metrics" "total_calculations") = 1 := by
  refine ⟨?_, ?_, ?_⟩ <;> decide

/-- Claim C6 as amended: on every successful risk result the cache writer
stores, under the portfolio-prefixed key, the flat record of every
RiskCalculation field plus the downside percentage, portfolio beta,
downside capture and the advanced_behavioral methodology marker, sets the
TTL of that key to 300 seconds on every write, increments the
total_calculations counter by one and adds the calculation time to
total_processing_time_ms; the last_calculation timestamp is not touched. -/
theorem claim_C6_amended (key : String) (rc : RiskCalculation)
    (dp pb dc : ℚ) (st : RedisState)
    (h1 : numericOk (hashGet st "global:metrics" "total_calculations") = true)
    (h2 : numericOk
      (hashGet st "global:metrics" "total_processing_time_ms") = true) :
    (∀ fv ∈ riskDataFields rc dp pb dc,
      hashGet (cache_results (some ⟨false⟩) key rc dp pb dc st)
        ("portfolio:" ++ key) fv.1 = some fv.2) ∧
    assocFind (cache_results (some ⟨false⟩) key rc dp pb dc st).ttls
      ("portfolio:" ++ key) = some REDIS_TTL ∧
    numOr0 (hashGet (cache_results (some ⟨false⟩) key rc dp pb dc st)
        "global:metrics" "total_calculations") =
      numOr0 (hashGet st "global:metrics" "total_calculations") + 1 ∧
    numOr0 (hashGet (cache_results (some ⟨false⟩) key rc dp pb dc st)
        "global:metrics" "total_processing_time_ms") =
      numOr0 (hashGet st "global:metrics" "total_processing_time_ms") +
        rc.calculation_time_ms := by
  have hne : ("portfolio:" ++ key) ≠ "global:metrics" :=
    portfolio_key_ne_metrics key
  have hst2c : hashGet (expireKey
      (hashSetMapping st ("portfolio:" ++ key) (riskDataFields rc dp pb dc))
      ("portfolio:" ++ key) REDIS_TTL) "global:metrics"
      "total_calculations" =
      hashGet st "global:metrics" "total_calculations" := by
    show hashGet (hashSetMapping st ("portfolio:" ++ key)
      (riskDataFields rc dp pb dc)) "global:metrics" "total_calculations" = _
    exact hashGet_hashSetMapping_other _ _ _ _ _ hne
  have hst2p : hashGet (expireKey
      (hashSetMapping st ("portfolio:" ++ key) (riskDataFields rc dp pb dc))
      ("portfolio:" ++ key) REDIS_TTL) "global:metrics"
      "total_processing_time_ms" =
      hashGet st "global:metrics" "total_processing_time_ms" := by
    show hashGet (hashSetMapping st ("portfolio:" ++ key)
      (riskDataFields rc dp pb dc)) "global:metrics"
      "total_processing_time_ms" = _
    exact hashGet_hashSetMapping_other _ _ _ _ _ hne
  rw [cache_results_false_eq key rc dp pb dc st h1 h2]
  dsimp only
  refine ⟨?_, ?_, ?_, ?_⟩
  · intro fv hmem
    rw [hashGet_hashSetMapping_other _ _ _ _ _ (Ne.symm hne),
      hashGet_hashSetMapping_other _ _ _ _ _ (Ne.symm hne)]
    show hashGet (hashSetMapping st ("portfolio:" ++ key)
      (riskDataFields rc dp pb dc)) ("portfolio:" ++ key) fv.1 = some fv.2
    rw [hashGet_hashSetMapping_self]
    have hnd : ((riskDataFields rc dp pb dc).map Prod.fst).Nodup := by
      show (["portfolio_id", "advisor_id", "risk_number", "var_95",
        "expected_return", "volatility", "sharpe_ratio",
        "downside_percentage", "portfolio_beta", "downside_capture",
        "calculation_time_ms", "timestamp", "methodology"] :
          List String).Nodup
      decide
    exact foldl_assocSet_mem _ _ _ _ hnd (by simpa using hmem)
  · show assocFind (assocSet st.ttls ("portfolio:" ++ key) REDIS_TTL)
      ("portfolio:" ++ key) = some REDIS_TTL
    exact assocFind_assocSet_self _ _ _
  · rw [hashGet_hashSetMapping_single_other _ _ _ _ _
      (by decide : ("total_calculations" : String) ≠ "total_processing_time_ms"),
      hashGet_hashSetMapping_single_self]
    simp only [numOr0]
    rw [hst2c]
  · rw [hashGet_hashSetMapping_single_self]
    simp only [numOr0]
    rw [hashGet_hashSetMapping_single_other _ _ _ _ _
      (by decide : ("total_processing_time_ms" : String) ≠ "total_calculations"),
      hst2p]

/-- Witness for claim C6 on a concrete risk result written into the empty
cache. -/
theorem claim_C6_amended_witness :
    (numericOk (hashGet RedisState.empty "global:metrics"
        "total_calculations") = true ∧
      numericOk (hashGet RedisState.empty "global:metrics"
        "total_processing_time_ms") = true) ∧
    ((∀ fv ∈ riskDataFields rcC6 (-5) 1.1 110,
      hashGet (cache_results (some ⟨false⟩) "p6" rcC6 (-5) 1.1 110
        RedisState.empty) ("portfolio:" ++ "p6") fv.1 = some fv.2) ∧
    assocFind (cache_results (some ⟨false⟩) "p6" rcC6 (-5) 1.1 110
        RedisState.empty).ttls ("portfolio:" ++ "p6") = some REDIS_TTL ∧
    numOr0 (hashGet (cache_results (some ⟨false⟩) "p6" rcC6 (-5) 1.1 110
        RedisState.empty) "global:metrics" "total_calculations") =
      numOr0 (hashGet RedisState.empty "global:metrics"
        "total_calculations") + 1 ∧
    numOr0 (hashGet (cache_results (some ⟨false⟩) "p6" rcC6 (-5) 1.1 110
        RedisState.empty) "global:metrics" "total_processing_time_ms") =
      numOr0 (hashGet RedisState.empty "global:metrics"
        "total_processing_time_ms") + rcC6.calculation_time_ms) :=
  ⟨⟨by decide, by decide⟩,
   claim_C6_amended "p6" rcC6 (-5) 1.1 110 RedisState.empty
     (by decide) (by decide)⟩

lemma assocFind_mem {α : Type} :
    ∀ (l : List (String × α)) (s : String) (v : α),
      assocFind l s = some v → (s, v) ∈ l := by
  intro l
  induction l with
  | nil => intro s v h; cases h
  | cons hd tl ih =>
      intro s v h
      obtain ⟨k, w⟩ := hd
      by_cases hk : k = s
      · rw [assocFind, if_pos hk] at h
        injection h with hv
        subst hk
        subst hv
        exact List.mem_cons_self _ _
      · rw [assocFind, if_neg hk] at h
        exact List.mem_cons.mpr (Or.inr (ih s v h))

/-- Every security the lookup can produce, from the table or from the
fallback, has a nonnegative volatility. -/
lemma get_vol_nonneg (s : String) :
    0 ≤ (get_security_characteristics s).volatility := by
  cases h : assocFind SECURITY_CHARACTERISTICS s with
  | none =>
      rw [get_security_characteristics, h]
      show 0 ≤ (fallback_characteristics s).volatility
      rw [fallback_characteristics]
      split_ifs <;> decide
  | some c =>
      rw [get_security_characteristics, h]
      show 0 ≤ c.volatility
      have hmem := assocFind_mem _ _ _ h
      have hall : ∀ e ∈ SECURITY_CHARACTERISTICS, 0 ≤ e.2.volatility := by
        decide
      exact hall _ hmem

/-- The portfolio variance of a single position is the square of the
weighted volatility. -/
lemma variance_single (pos : Position) :
    variance_of [pos] =
      ((pos.weight / 100) *
        (get_security_characteristics pos.symbol).volatility) ^ 2 := by
  rw [variance_of]
  show (∑ i : Fin 1, ∑ j : Fin 1,
      posWeight [pos] i *
        (posVol [pos] i * posVol [pos] j * correlationEntry [pos] i j) *
        posWeight [pos] j) = _
  rw [Fin.sum_univ_one, Fin.sum_univ_one]
  rw [show correlationEntry [pos] (0 : Fin 1) (0 : Fin 1) = 1.0 from
    by rw [correlationEntry, if_pos rfl]]
  show pos.weight / 100 *
      ((get_security_characteristics pos.symbol).volatility *
        (get_security_characteristics pos.symbol).volatility * 1.0) *
      (pos.weight / 100) = _
  ring

/-- Counterexample for claim C8 as stated: the portfolio with the single
AAPL position of weight 99.9 is accepted (the weight-sum tolerance is 0.1),
AAPL has volatility 0.22, and the exact portfolio volatility, the
nonnegative real 0.21978 whose square is the computed variance, differs
from 0.22 far beyond the claimed 1e-9 relative tolerance. -/
theorem claim_C8_counterexample :
    Portfolio.accepted portfolioC8 ∧
    portfolioC8.positions.length = 1 ∧
    (get_security_characteristics "AAPL").volatility = 0.22 ∧
    (0 : ℝ) ≤ (0.21978 : ℝ) ∧
    (0.21978 : ℝ) ^ 2 = ((portfolio_variance portfolioC8 : ℚ) : ℝ) ∧
    ¬ (|(0.21978 : ℝ) - 0.22| ≤ 1e-9 * |(0.22 : ℝ)|) := by
  refine ⟨by decide, by decide, by decide, by norm_num, ?_, ?_⟩
  · have hq : portfolio_variance portfolioC8 = 0.0483032484 := by decide
    rw [hq]
    push_cast
    norm_num
  · rw [abs_of_neg (by norm_num : (0.21978 : ℝ) - 0.22 < 0),
      abs_of_pos (by norm_num : (0 : ℝ) < 0.22)]
    norm_num

/-- Claim C8 as amended: for every accepted single-position portfolio whose
position has weight exactly 100, the portfolio volatility (the nonnegative
real whose square is the computed variance) equals the volatility of the
position's security exactly, and the downside percentage computed from it
equals -1.64 times that volatility times 100 exactly (so in particular
within any relative tolerance). -/
theorem claim_C8_amended (p : Portfolio) (pos : Position)
    (_hacc : p.accepted) (hpos : p.positions = [pos]) (hw : pos.weight = 100)
    (V : ℝ) (hV : 0 ≤ V)
    (hVsq : V ^ 2 = ((portfolio_variance p : ℚ) : ℝ)) :
    V = ((get_security_characteristics pos.symbol).volatility : ℝ) ∧
    -((Z_SCORE : ℚ) : ℝ) * V * 100 =
      -1.64 * ((get_security_characteristics pos.symbol).volatility : ℝ) * 100 := by
  have hσq : 0 ≤ (get_security_characteristics pos.symbol).volatility :=
    get_vol_nonneg _
  have hσ : (0:ℝ) ≤ ((get_security_characteristics pos.symbol).volatility : ℝ) := by
    exact_mod_cast hσq
  have hvar : portfolio_variance p =
      ((get_security_characteristics pos.symbol).volatility) ^ 2 := by
    rw [portfolio_variance, hpos, variance_single, hw]
    norm_num
  have hVsq2 : V ^ 2 =
      ((get_security_characteristics pos.symbol).volatility : ℝ) ^ 2 := by
    rw [hVsq, hvar]
    push_cast
    ring
  have hfact : (V - ((get_security_characteristics pos.symbol).volatility : ℝ)) *
      (V + ((get_security_characteristics pos.symbol).volatility : ℝ)) = 0 := by
    linear_combination hVsq2
  have hVeq : V = ((get_security_characteristics pos.symbol).volatility : ℝ) := by
    rcases mul_eq_zero.mp hfact with h | h
    · linarith [sub_eq_zero.mp h]
    · have hV0 : V = 0 := le_antisymm (by linarith) hV
      have hs0 : ((get_security_characteristics pos.symbol).volatility : ℝ) = 0 := by
        linarith
      rw [hV0, hs0]
  refine ⟨hVeq, ?_⟩
  rw [hVeq]
  norm_num [Z_SCORE]

/-- Witness for claim C8 on the concrete weight-100 single-AAPL
portfolio, with the exact volatility 0.22. -/
theorem claim_C8_amended_witness :
    (Portfolio.accepted portfolioC8w ∧
      portfolioC8w.positions = [posC8w] ∧
      posC8w.weight = 100 ∧
      (0:ℝ) ≤ ((0.22 : ℚ) : ℝ) ∧
      ((0.22 : ℚ) : ℝ) ^ 2 = ((portfolio_variance portfolioC8w : ℚ) : ℝ)) ∧
    (((0.22 : ℚ) : ℝ) =
        ((get_security_characteristics posC8w.symbol).volatility : ℝ) ∧
      -((Z_SCORE : ℚ) : ℝ) * ((0.22 : ℚ) : ℝ) * 100 =
        -1.64 *
          ((get_security_characteristics posC8w.symbol).volatility : ℝ) * 100) := by
  have h4 : (0:ℝ) ≤ ((0.22 : ℚ) : ℝ) := by norm_num
  have h5 : ((0.22 : ℚ) : ℝ) ^ 2 = ((portfolio_variance portfolioC8w : ℚ) : ℝ) := by
    have hq : portfolio_variance portfolioC8w = 0.0484 := by decide
    rw [hq]
    push_cast
    norm_num
  exact ⟨⟨by decide, rfl, rfl, h4, h5⟩,
    claim_C8_amended portfolioC8w posC8w (by decide) rfl rfl _ h4 h5⟩

end Claims

end Prospector
